import Mathlib

/-!
# Verification of the talk-to-your-docs client session core

Shallow embedding of the client-side session core of the `talk-to-your-docs`
repository:

* `Layout.jsx` — conversation state, the `ws.onmessage` frame handler and
  `handleSendMessage`;
* `DocumentList.jsx` — the document status poller and `getDocumentUrl`;
* `websocket.js` — the module-level socket with its unconditional reconnect.

React semantics that matter for faithfulness: the `ws.onmessage` handler is
created inside a `useEffect` whose dependency array is `[config, configLoading]`,
which never changes again after the configuration has loaded.  The handler
therefore closes over the values of `aiRespondingMessageId` and
`availableSources` from the render in which it was installed (both in their
initial state: `null` and `[]`), while the `setX` functional updates it issues
read the *current* state.  The embedding makes this explicit: the handler takes
a `HandlerClosure` (the captured snapshot) separately from the current
`ConvState`.
-/

namespace TalkToYourDocs

/-- A chat message as built by `Layout.jsx`:
`{id, text, sender, timestamp}` with `sender ∈ {"user", "ai", "system"}`.
`Date.now()` and `new Date().toISOString()` are both modelled by a `Nat`
clock value supplied per event. -/
structure Message where
  id : Nat
  text : String
  sender : String
  timestamp : Nat
deriving Repr, DecidableEq

/-- A cited source document: `{id, url, title}` as built by the citation and
complete branches of `ws.onmessage`. -/
structure Source where
  id : String
  url : String
  title : String
deriving Repr, DecidableEq

/-- The conversation-related React state of `Layout`:
`messages`, `availableSources`, `currentDocumentIndex`,
`aiRespondingMessageId`. -/
structure ConvState where
  messages : List Message
  availableSources : List Source
  currentDocumentIndex : Nat
  aiRespondingMessageId : Option Nat
deriving Repr, DecidableEq

/-- A loosely-shaped inbound JSON frame, with every field the handler probes.
`none` models an absent (or `null`) JSON field; `outputText` models the nested
`data.output.text` path; `sources` models `Object.entries(data.sources)` in
object-key iteration order, with `[]` covering both an absent and an empty
`sources` object (both fail the `data.sources && Object.keys(...).length > 0`
guard). -/
structure Frame where
  type : Option String
  content : Option String
  text : Option String
  outputText : Option String
  sourceId : String
  sourceUrl : Option String
  sources : List (String × String)
  message : Option String
  error : Option String
deriving Repr, DecidableEq

/-- JavaScript truthiness of a possibly-absent string field:
`undefined`, `null` and `""` are falsy, every other string is truthy. -/
def jsTruthy : Option String → Bool
  | some s => s != ""
  | none => false

/-- The text-extraction cascade at the top of `ws.onmessage`:
`data.type === 'text' && data.content`, then `data.text`, then
`data.output && data.output.text`. -/
def extractTextContent (data : Frame) : Option String :=
  if data.type == some "text" && jsTruthy data.content then data.content
  else if jsTruthy data.text then data.text
  else if jsTruthy data.outputText then data.outputText
  else none

/-- The snapshot of state captured by the `ws.onmessage` closure at the render
in which the websocket `useEffect` ran.  The effect's dependency array is
`[config, configLoading]`, so the handler is installed exactly once (after the
configuration loads) and these captured values never change afterwards. -/
structure HandlerClosure where
  aiRespondingMessageId : Option Nat
  availableSources : List Source
deriving Repr, DecidableEq

/-- The closure actually captured in a running session: the handler is
installed before any message or citation exists, so it forever sees
`aiRespondingMessageId = null` and `availableSources = []`. -/
def installClosure : HandlerClosure :=
  { aiRespondingMessageId := none, availableSources := [] }

/-- Text branch of `ws.onmessage`: `if (textContent !== null)`.  The guard
`aiRespondingMessageId !== null` reads the closure's captured value; the
`setMessages` functional update reads the current state. -/
def textBranch (c : HandlerClosure) (now : Nat) (data : Frame) (st : ConvState) : ConvState :=
  match extractTextContent data with
  | some textContent =>
    match c.aiRespondingMessageId with
    | some mid =>
      { st with messages := st.messages.map fun msg =>
          if msg.id == mid then { msg with text := msg.text ++ textContent } else msg }
    | none =>
      { st with
          messages := st.messages ++
            [{ id := now, text := textContent, sender := "ai", timestamp := now }],
          aiRespondingMessageId := some now }
  | none => st

/-- Citation branch of `ws.onmessage`:
`if (data.type === 'citation' && data.sourceUrl)`.  The `findIndex` dedup
check runs on the closure's captured (stale) `availableSources`; the append
uses a functional update on the current state. -/
def citationBranch (c : HandlerClosure) (data : Frame) (st : ConvState) : ConvState :=
  if data.type == some "citation" && jsTruthy data.sourceUrl then
    match c.availableSources.findIdx? (fun source => source.id == data.sourceId) with
    | some existingIndex => { st with currentDocumentIndex := existingIndex }
    | none =>
      let newSource : Source :=
        { id := data.sourceId, url := data.sourceUrl.getD "",
          title := "Source " ++ data.sourceId }
      let newSources := st.availableSources ++ [newSource]
      { st with
          availableSources := newSources,
          currentDocumentIndex := newSources.length - 1 }
  else st

/-- Complete branch of `ws.onmessage`: `if (data.type === 'complete')`.  The
`availableSources.length === 0` emptiness check reads the closure's captured
(stale) `availableSources`. -/
def completeBranch (c : HandlerClosure) (data : Frame) (st : ConvState) : ConvState :=
  if data.type == some "complete" then
    let st := { st with aiRespondingMessageId := none }
    if !data.sources.isEmpty && c.availableSources.length == 0 then
      { st with
          availableSources := data.sources.map fun p =>
            { id := p.1, url := p.2, title := "Source " ++ p.1 },
          currentDocumentIndex := 0 }
    else st
  else st

/-- Error branch of `ws.onmessage`:
`if (data.error || (data.type === 'error' && data.message))`. -/
def errorBranch (now : Nat) (data : Frame) (st : ConvState) : ConvState :=
  if jsTruthy data.error || (data.type == some "error" && jsTruthy data.message) then
    let errorMsg := if jsTruthy data.error then data.error.getD "" else data.message.getD ""
    { st with
        messages := st.messages ++
          [{ id := now, text := "Error: " ++ errorMsg, sender := "system", timestamp := now }],
        aiRespondingMessageId := none }
  else st

/-- The `ws.onmessage` handler of `Layout.jsx` on one inbound frame.
`c` is the captured closure snapshot, `st` the current React state (read by
the functional `setX` updates), `now` the value of `Date.now()` during this
invocation.  The four branches (text, citation, complete, error) are
sequential `if`s in the source and are applied in that order. -/
def wsOnMessage (c : HandlerClosure) (now : Nat) (data : Frame) (st : ConvState) : ConvState :=
  errorBranch now data (completeBranch c data (citationBranch c data (textBranch c now data st)))

/-- Deliver a list of `(Date.now(), frame)` events to `ws.onmessage` in order. -/
def runFrames (c : HandlerClosure) (frames : List (Nat × Frame)) (st : ConvState) : ConvState :=
  frames.foldl (fun s p => wsOnMessage c p.1 p.2 s) st

/-- The outbound object sent by `handleSendMessage`:
`{query, modelArn, searchMethod}`. -/
structure OutboundMessage where
  query : String
  modelArn : String
  searchMethod : String
deriving Repr, DecidableEq

/-- The React state of `Layout` relevant to sending and to the connection:
the conversation state plus `wsConnection` (modelled by whether it is set),
`isConnected`, `selectedModel`, `selectedSearchMethod`. -/
structure LayoutState where
  conv : ConvState
  hasWsConnection : Bool
  isConnected : Bool
  selectedModel : String
  selectedSearchMethod : String
deriving Repr, DecidableEq

/-- `ws.onmessage` lifted to the full `Layout` state: the handler only updates
conversation fields; it never touches the connection flags and never calls
`ws.close()`. -/
def sessionOnMessage (c : HandlerClosure) (now : Nat) (data : Frame) (st : LayoutState) :
    LayoutState :=
  { st with conv := wsOnMessage c now data st.conv }

/-- `handleSendMessage` of `Layout.jsx`: guarded by
`if (wsConnection && isConnected)`; clears `aiRespondingMessageId`,
`availableSources` and `currentDocumentIndex`, appends the user message, and
sends `{query, modelArn: selectedModel, searchMethod: selectedSearchMethod}`.
Returns the new state and the outbound frame (if any). -/
def handleSendMessage (now : Nat) (message : String) (st : LayoutState) :
    LayoutState × Option OutboundMessage :=
  if st.hasWsConnection && st.isConnected then
    ({ st with conv :=
        { messages := st.conv.messages ++
            [{ id := now, text := message, sender := "user", timestamp := now }],
          availableSources := [],
          currentDocumentIndex := 0,
          aiRespondingMessageId := none } },
     some { query := message, modelArn := st.selectedModel,
            searchMethod := st.selectedSearchMethod })
  else (st, none)

/-- Frame `{"type":"text","content":s}`. -/
def textFrame (s : String) : Frame :=
  { type := some "text", content := some s, text := none, outputText := none,
    sourceId := "", sourceUrl := none, sources := [], message := none, error := none }

/-- Frame `{"type":"citation","sourceId":sid,"sourceUrl":url}`. -/
def citationFrame (sid url : String) : Frame :=
  { type := some "citation", content := none, text := none, outputText := none,
    sourceId := sid, sourceUrl := some url, sources := [], message := none, error := none }

/-- Frame `{"type":"complete","sources":{...}}` with entries `srcs`. -/
def completeFrame (srcs : List (String × String)) : Frame :=
  { type := some "complete", content := none, text := none, outputText := none,
    sourceId := "", sourceUrl := none, sources := srcs, message := none, error := none }

/-- Frame `{"type":"error","message":m}`. -/
def errorMessageFrame (m : String) : Frame :=
  { type := some "error", content := none, text := none, outputText := none,
    sourceId := "", sourceUrl := none, sources := [], message := some m, error := none }

/-- Frame `{"error":e}`. -/
def errorFieldFrame (e : String) : Frame :=
  { type := none, content := none, text := none, outputText := none,
    sourceId := "", sourceUrl := none, sources := [], message := none, error := some e }

/-- The empty initial conversation state of `Layout`. -/
def emptyConv : ConvState :=
  { messages := [], availableSources := [], currentDocumentIndex := 0,
    aiRespondingMessageId := none }

/-! ## Document status poller (`DocumentList.jsx`) -/

/-- `TERMINAL_STATES = ['COMPLETED', 'ERROR']`. -/
def TERMINAL_STATES : List String := ["COMPLETED", "ERROR"]

/-- `POLLING_INTERVAL = 10000`. -/
def POLLING_INTERVAL : Nat := 10000

/-- A document record as consumed by the poller; only the fields the polling
logic reads are modelled (`status` drives the terminal predicate). -/
structure DocumentRecord where
  id : String
  fileName : String
  status : String
deriving Repr, DecidableEq

/-- The poller-relevant React state of `DocumentList`: `documents`,
`isPolling`, and whether the `setInterval` timer is currently armed
(`pollingIntervalRef` holding a live interval).  The polling `useEffect`
(dependencies `[apiUrl, isPolling]`) keeps `timerActive` synchronized with
`isPolling`. -/
structure PollerState where
  documents : List DocumentRecord
  isPolling : Bool
  timerActive : Bool
deriving Repr, DecidableEq

/-- `(data.documents || []).every(doc => TERMINAL_STATES.includes(doc.status))`. -/
def allDocumentsProcessed (docs : List DocumentRecord) : Bool :=
  docs.all fun doc => TERMINAL_STATES.contains doc.status

/-- The state update performed by a successful `fetchDocuments` response:
`setDocuments(data.documents || [])`, then
`if (allDocumentsProcessed && data.documents.length > 0) setIsPolling(false)`.
(The second `useEffect` over `[documents, isPolling]` re-checks the same
predicate and is subsumed by this update.) -/
def applyFetchSuccess (docs : List DocumentRecord) (st : PollerState) : PollerState :=
  let st := { st with documents := docs }
  if allDocumentsProcessed docs && docs.length > 0 then { st with isPolling := false }
  else st

/-- External events driving the poller: a successful fetch response arriving,
the `setInterval` timer firing, the refresh button (`handleRefresh`), and the
Auto-update button (`handleResumePolling`). -/
inductive PollerEvent where
  | fetchSuccess (docs : List DocumentRecord)
  | timerTick
  | refreshClick
  | resumeClick
deriving Repr, DecidableEq

/-- One poller event handled to completion (the full synchronous React
cascade), returning the new state together with the number of status requests
issued while handling it.

* `fetchSuccess docs` applies the response; if it flips `isPolling`, the
  polling `useEffect` re-runs: its cleanup clears the interval, its body
  issues one immediate `fetchDocuments()` and re-arms the interval iff
  `isPolling`.  The status `useEffect` (deps `[documents, isPolling]`)
  re-checks the same all-terminal predicate the fetch already applied, so it
  cannot change anything further on this path.
* `timerTick` issues one request iff the interval is armed.
* `refreshClick` (`handleRefresh`) just calls `fetchDocuments()` — one
  request, no state change.
* `resumeClick` (`handleResumePolling`) sets `isPolling` to `true` (if it was
  already `true`, React bails out on the identical value).  The polling
  effect re-runs: one immediate fetch, interval armed.  Then the status
  effect runs with the unchanged documents: if they are non-empty and all
  terminal it calls `setIsPolling(false)` in the same cascade, so the polling
  effect re-runs once more — its cleanup clears the just-armed interval
  (before any 10000 ms tick can fire) and its body issues one more fetch
  without re-arming; otherwise the resume sticks and the interval stays
  armed. -/
def pollerStep : PollerEvent → PollerState → PollerState × Nat
  | .fetchSuccess docs, st =>
      let st1 := applyFetchSuccess docs st
      if st1.isPolling == st.isPolling then (st1, 0)
      else ({ st1 with timerActive := st1.isPolling }, 1)
  | .timerTick, st => (st, if st.timerActive then 1 else 0)
  | .refreshClick, st => (st, 1)
  | .resumeClick, st =>
      if st.isPolling then (st, 0)
      else if allDocumentsProcessed st.documents && st.documents.length > 0 then
        ({ st with isPolling := false, timerActive := false }, 2)
      else
        ({ st with isPolling := true, timerActive := true }, 1)

/-- The number of requests issued by timer ticks (automatic, timer-driven
requests) over a sequence of poller events. -/
def timerRequests : List PollerEvent → PollerState → Nat
  | [], _ => 0
  | e :: es, st =>
      let p := pollerStep e st
      (match e with
        | .timerTick => p.2
        | _ => 0) + timerRequests es p.1

/-! ## Module-level websocket (`src/websocket.js`) -/

/-- The fixed reconnect delay of `socket.onclose`:
`setTimeout(connectWebSocket, 5000)`. -/
def RECONNECT_DELAY_MS : Nat := 5000

/-- The observable state of the `websocket.js` module: whether the current
socket is open, the delay of a pending scheduled reconnect (if any), and how
many times `connectWebSocket` has been called so far. -/
structure WsModuleState where
  socketOpen : Bool
  pendingReconnectDelay : Option Nat
  connectCalls : Nat
deriving Repr, DecidableEq

/-- Transport events of the module socket: `socket.onopen`, `socket.onclose`,
and the reconnect `setTimeout` firing. -/
inductive WsEvent where
  | openEvt
  | closeEvt
  | reconnectTimerFires
deriving Repr, DecidableEq

/-- One transport event handled by `websocket.js`:
`onopen` only logs; `onclose` unconditionally schedules
`setTimeout(connectWebSocket, 5000)` — no condition on retry count, no
growing delay; when the timeout fires, `connectWebSocket` is called again. -/
def wsModuleStep : WsEvent → WsModuleState → WsModuleState
  | .openEvt, st => { st with socketOpen := true }
  | .closeEvt, st =>
      { st with socketOpen := false, pendingReconnectDelay := some RECONNECT_DELAY_MS }
  | .reconnectTimerFires, st =>
      match st.pendingReconnectDelay with
      | some _ =>
          { st with pendingReconnectDelay := none, connectCalls := st.connectCalls + 1 }
      | none => st

/-- Run a sequence of transport events through the module. -/
def runWsEvents (evs : List WsEvent) (st : WsModuleState) : WsModuleState :=
  evs.foldl (fun s e => wsModuleStep e s) st

/-! ## `getDocumentUrl` (`DocumentList.jsx`)

Strings are handled at the character-list level so that the `split('/')` /
`join('/')` round trip of the source can be reasoned about directly. -/

/-- JavaScript `String.prototype.split('/')` on a character list. -/
def splitOnSlash : List Char → List (List Char)
  | [] => [[]]
  | c :: cs =>
      if c = '/' then [] :: splitOnSlash cs
      else
        match splitOnSlash cs with
        | [] => [[c]]
        | g :: gs => (c :: g) :: gs

/-- JavaScript `Array.prototype.join('/')` on character lists. -/
def joinSlash : List (List Char) → List Char
  | [] => []
  | [g] => g
  | g :: gs => g ++ '/' :: joinSlash gs

/-- JavaScript `s.startsWith(p)` on character lists (`p` first). -/
def startsWithChars : List Char → List Char → Bool
  | [], _ => true
  | _ :: _, [] => false
  | p :: ps, c :: cs => p == c && startsWithChars ps cs

/-- The characters of `'s3://'`. -/
def s3Scheme : List Char := ['s', '3', ':', '/', '/']

/-- The characters of `'https://'`. -/
def httpsScheme : List Char := ['h', 't', 't', 'p', 's', ':', '/', '/']

/-- `getDocumentUrl` of `DocumentList.jsx` on character lists:
`if (!s3Url || !cloudFrontDomain) return '#'`;
if the url starts with `'s3://'`, drop the scheme
(`replace('s3://', '')` under the `startsWith` guard), split on `'/'`,
drop the bucket (`parts[0]`), rejoin the key (`parts.slice(1).join('/')`)
and build `https://<cloudFrontDomain>/<key>`; otherwise return the input. -/
def getDocumentUrlChars (cloudFrontDomain s3Url : List Char) : List Char :=
  if s3Url.isEmpty || cloudFrontDomain.isEmpty then ['#']
  else if startsWithChars s3Scheme s3Url then
    let parts := splitOnSlash (s3Url.drop s3Scheme.length)
    let key := joinSlash (parts.drop 1)
    httpsScheme ++ cloudFrontDomain ++ '/' :: key
  else s3Url

/-- `getDocumentUrl` on strings; `cloudFrontDomain` is `none` when the prop is
absent (`undefined`), and both `undefined` and `""` are falsy. -/
def getDocumentUrl (cloudFrontDomain : Option String) (s3Url : String) : String :=
  String.mk (getDocumentUrlChars (cloudFrontDomain.getD "").toList s3Url.toList)

/-! ## Concrete states used in scenarios and witnesses -/

/-- The `Layout` state right after the websocket connection opened, with the
default model and search method selections. -/
def layoutConnected : LayoutState :=
  { conv := emptyConv, hasWsConnection := true, isConnected := true,
    selectedModel := "amazon.nova-pro-v1:0", selectedSearchMethod := "opensearch" }

/-- A conversation mid-stream: a user message and a partially built ai
message that is the active streaming target. -/
def partialTurnConv : ConvState :=
  { messages :=
      [{ id := 1, text := "What is the refund policy?", sender := "user", timestamp := 1 },
       { id := 2, text := "Refunds", sender := "ai", timestamp := 2 }],
    availableSources := [], currentDocumentIndex := 0, aiRespondingMessageId := some 2 }

/-- `partialTurnConv` embedded in a connected `Layout` state. -/
def partialTurnLayout : LayoutState :=
  { conv := partialTurnConv, hasWsConnection := true, isConnected := true,
    selectedModel := "amazon.nova-pro-v1:0", selectedSearchMethod := "opensearch" }

/-- A conversation that already holds one incrementally received source. -/
def convWithSource : ConvState :=
  { messages := [{ id := 2, text := "Refunds", sender := "ai", timestamp := 2 }],
    availableSources := [{ id := "doc1", url := "s3://bucket/doc1.pdf", title := "Source doc1" }],
    currentDocumentIndex := 0, aiRespondingMessageId := some 2 }

/-- A `{"type":"citation"}` frame whose `sourceUrl` is the empty string. -/
def citationNoUrlFrame : Frame :=
  { type := some "citation", content := none, text := none, outputText := none,
    sourceId := "doc9", sourceUrl := some "", sources := [], message := none, error := none }

/-! ## Branch preservation lemmas -/

/-- The text branch never touches the source list or the current index. -/
theorem textBranch_preserves_sources (c : HandlerClosure) (now : Nat) (data : Frame)
    (st : ConvState) :
    (textBranch c now data st).availableSources = st.availableSources ∧
    (textBranch c now data st).currentDocumentIndex = st.currentDocumentIndex := by
  unfold textBranch
  cases extractTextContent data with
  | none => exact ⟨rfl, rfl⟩
  | some tc => cases c.aiRespondingMessageId <;> exact ⟨rfl, rfl⟩

/-- The error branch never touches the source list or the current index. -/
theorem errorBranch_preserves_sources (now : Nat) (data : Frame) (st : ConvState) :
    (errorBranch now data st).availableSources = st.availableSources ∧
    (errorBranch now data st).currentDocumentIndex = st.currentDocumentIndex := by
  unfold errorBranch
  split <;> exact ⟨rfl, rfl⟩

/-! ## Claim theorems: conversation side -/

/-- C1 (code bug evaluation): starting a turn with `handleSendMessage` and
then delivering the two text fragments `"Refunds"` and
`" are allowed within 30 days."` followed by a complete frame produces TWO
`ai` messages, none of which carries the concatenated text — the
`ws.onmessage` closure's captured `aiRespondingMessageId` is permanently
`null`, so every fragment opens a fresh ai message instead of appending to
the active one as the code's own comments intend. -/
def turnC1 : ConvState :=
  (handleSendMessage 1000 "What is the refund policy?" layoutConnected).1.conv

/-- The conversation state after the C1 failing frame sequence. -/
def streamedC1 : ConvState :=
  runFrames installClosure
    [(1001, textFrame "Refunds"),
     (1002, textFrame " are allowed within 30 days."),
     (1003, completeFrame [])] turnC1

/-- C1: evaluating the code on the failing input: two text fragments in one
turn yield two distinct `ai` messages, and no message in the history carries
the concatenation `"Refunds are allowed within 30 days."`. -/
theorem fragment_accumulation_bug :
    ((streamedC1.messages.filter fun m => m.sender == "ai").length = 2) ∧
    ((streamedC1.messages.all fun m => m.text != "Refunds are allowed within 30 days.") = true) ∧
    streamedC1.aiRespondingMessageId = none := by decide

/-- C2: `handleSendMessage` — when `wsConnection` is set and `isConnected`
holds, it clears `aiRespondingMessageId`, empties the source list, resets
`currentSourceIndex` to 0, appends the user message, and sends exactly
`{query, modelArn: selectedModel, searchMethod: selectedSearchMethod}`;
otherwise it changes nothing and sends nothing. -/
theorem handleSendMessage_spec (now : Nat) (message : String) (st : LayoutState) :
    ((st.hasWsConnection && st.isConnected) = true →
      handleSendMessage now message st =
        ({ st with conv :=
            { messages := st.conv.messages ++
                [{ id := now, text := message, sender := "user", timestamp := now }],
              availableSources := [],
              currentDocumentIndex := 0,
              aiRespondingMessageId := none } },
         some { query := message, modelArn := st.selectedModel,
                searchMethod := st.selectedSearchMethod })) ∧
    ((st.hasWsConnection && st.isConnected) = false →
      handleSendMessage now message st = (st, none)) := by
  unfold handleSendMessage
  constructor <;> intro h <;> simp [h]

/-- C2 witness: the theorem applied to a concrete connected state. -/
theorem handleSendMessage_spec_witness :
    (layoutConnected.hasWsConnection && layoutConnected.isConnected) = true ∧
    handleSendMessage 42 "What is the refund policy?" layoutConnected =
      ({ layoutConnected with conv :=
          { messages := layoutConnected.conv.messages ++
              [{ id := 42, text := "What is the refund policy?", sender := "user",
                 timestamp := 42 }],
            availableSources := [],
            currentDocumentIndex := 0,
            aiRespondingMessageId := none } },
       some { query := "What is the refund policy?", modelArn := layoutConnected.selectedModel,
              searchMethod := layoutConnected.selectedSearchMethod }) :=
  ⟨by decide,
   (handleSendMessage_spec 42 "What is the refund policy?" layoutConnected).1 (by decide)⟩

/-- C3 (code bug evaluation): an incremental citation for `doc1` is received
and sits in the source list when the complete frame with bulk map
`{doc2: ...}` arrives, yet the bulk map replaces the list — the emptiness
check `availableSources.length === 0` reads the closure's captured (always
empty) list, so the guard `// Only update sources if we haven't received any
yet` never protects the incremental citations. -/
def streamedC3 : ConvState :=
  runFrames installClosure
    [(2001, citationFrame "doc1" "s3://bucket/doc1.pdf"),
     (2002, completeFrame [("doc2", "s3://bucket/doc2.pdf")])] emptyConv

/-- C3: evaluating the code on the failing input: the citation for `doc1`
did build the source list, and the bulk map of the complete frame then
overwrote it with `doc2` instead of being ignored. -/
theorem bulk_sources_overwrite_bug :
    (runFrames installClosure [(2001, citationFrame "doc1" "s3://bucket/doc1.pdf")]
        emptyConv).availableSources =
      [{ id := "doc1", url := "s3://bucket/doc1.pdf", title := "Source doc1" }] ∧
    streamedC3.availableSources =
      [{ id := "doc2", url := "s3://bucket/doc2.pdf", title := "Source doc2" }] := by decide

/-- C4 (code bug evaluation): two citation frames with the same `sourceId`
both append — the `findIndex` dedup check runs on the closure's captured
(always empty) `availableSources`, so `// Check if this source is already in
our list` never finds anything. -/
def streamedC4 : ConvState :=
  runFrames installClosure
    [(3001, citationFrame "doc1" "s3://bucket/doc1.pdf"),
     (3002, citationFrame "doc1" "s3://bucket/doc1.pdf")] emptyConv

/-- C4: evaluating the code on the failing input: a repeated citation with
the same `sourceId` grows the source list to length 2 and moves
`currentDocumentIndex` to the duplicate, instead of keeping length 1 and
pointing at the original position 0. -/
theorem citation_dedup_bug :
    streamedC4.availableSources.length = 2 ∧ streamedC4.currentDocumentIndex = 1 := by decide

/-- C5: on an inbound error frame (either `{type:'error', message}` with a
non-empty message or `{error}` with a non-empty error), the handler appends a
system message `"Error: " ++ m`, clears `aiRespondingMessageId` (the partial
ai message stays in the history), and leaves every connection field of the
`Layout` state unchanged. -/
theorem errorFrame_spec (c : HandlerClosure) (now : Nat) (st : LayoutState) (m : String)
    (hm : m ≠ "") :
    sessionOnMessage c now (errorMessageFrame m) st =
      { st with conv :=
          { st.conv with
              messages := st.conv.messages ++
                [{ id := now, text := "Error: " ++ m, sender := "system", timestamp := now }],
              aiRespondingMessageId := none } } ∧
    sessionOnMessage c now (errorFieldFrame m) st =
      { st with conv :=
          { st.conv with
              messages := st.conv.messages ++
                [{ id := now, text := "Error: " ++ m, sender := "system", timestamp := now }],
              aiRespondingMessageId := none } } := by
  have hb : (m != "") = true := by simpa using hm
  constructor <;>
    simp [sessionOnMessage, wsOnMessage, textBranch, citationBranch, completeBranch,
      errorBranch, extractTextContent, errorMessageFrame, errorFieldFrame, jsTruthy, hb]

/-- C5 witness: the error scenario of the spec — `"model unavailable"`
arriving after one text fragment, applied to a concrete mid-stream state. -/
theorem errorFrame_spec_witness :
    "model unavailable" ≠ "" ∧
    sessionOnMessage installClosure 3 (errorMessageFrame "model unavailable") partialTurnLayout =
      { partialTurnLayout with conv :=
          { partialTurnLayout.conv with
              messages := partialTurnLayout.conv.messages ++
                [{ id := 3, text := "Error: " ++ "model unavailable", sender := "system",
                   timestamp := 3 }],
              aiRespondingMessageId := none } } :=
  ⟨by decide,
   (errorFrame_spec installClosure 3 partialTurnLayout "model unavailable" (by decide)).1⟩

/-- C10: a `{"type":"citation"}` frame whose `sourceUrl` is absent, `null`,
or the empty string leaves the source list and `currentSourceIndex`
completely unchanged — the citation branch is guarded by
`data.type === 'citation' && data.sourceUrl`, and no other branch of the
handler can fire on a frame of type `"citation"` except the text/error
branches, which never touch sources. -/
theorem citationWithoutUrl_ignored (c : HandlerClosure) (now : Nat) (data : Frame)
    (st : ConvState) (htype : data.type = some "citation")
    (hurl : jsTruthy data.sourceUrl = false) :
    (wsOnMessage c now data st).availableSources = st.availableSources ∧
    (wsOnMessage c now data st).currentDocumentIndex = st.currentDocumentIndex := by
  unfold wsOnMessage
  have hcit : citationBranch c data (textBranch c now data st) = textBranch c now data st := by
    unfold citationBranch
    simp [htype, hurl]
  have hcomp : ∀ s, completeBranch c data s = s := by
    intro s
    unfold completeBranch
    simp [htype]
  rw [hcit, hcomp]
  have h1 := errorBranch_preserves_sources now data (textBranch c now data st)
  have h2 := textBranch_preserves_sources c now data st
  exact ⟨h1.1.trans h2.1, h1.2.trans h2.2⟩

/-- C10 witness: an empty-`sourceUrl` citation frame delivered to a state
that already holds a source changes neither the list nor the index. -/
theorem citationWithoutUrl_ignored_witness :
    citationNoUrlFrame.type = some "citation" ∧
    jsTruthy citationNoUrlFrame.sourceUrl = false ∧
    (wsOnMessage installClosure 9 citationNoUrlFrame convWithSource).availableSources =
        convWithSource.availableSources ∧
    (wsOnMessage installClosure 9 citationNoUrlFrame convWithSource).currentDocumentIndex =
        convWithSource.currentDocumentIndex :=
  ⟨by decide, by decide,
   (citationWithoutUrl_ignored installClosure 9 citationNoUrlFrame convWithSource
      (by decide) (by decide)).1,
   (citationWithoutUrl_ignored installClosure 9 citationNoUrlFrame convWithSource
      (by decide) (by decide)).2⟩

/-! ## Claim theorems: poller -/

/-- `applyFetchSuccess` never sets `isPolling` to `true`. -/
theorem applyFetchSuccess_isPolling_false (docs : List DocumentRecord) (st : PollerState)
    (hp : st.isPolling = false) : (applyFetchSuccess docs st).isPolling = false := by
  unfold applyFetchSuccess
  split
  · rfl
  · simpa using hp

/-- `applyFetchSuccess` never touches the timer field. -/
theorem applyFetchSuccess_timerActive (docs : List DocumentRecord) (st : PollerState) :
    (applyFetchSuccess docs st).timerActive = st.timerActive := by
  unfold applyFetchSuccess
  split <;> rfl

/-- Once polling is stopped (`isPolling = false` with the interval cleared),
every event other than a resume keeps it stopped: a fetch response can only
turn polling off, a tick fires nothing, and a refresh changes no state. -/
theorem pollerStopped_preserved (st : PollerState) (e : PollerEvent)
    (hp : st.isPolling = false) (ht : st.timerActive = false)
    (hr : e ≠ PollerEvent.resumeClick) :
    (pollerStep e st).1.isPolling = false ∧ (pollerStep e st).1.timerActive = false := by
  cases e with
  | fetchSuccess docs =>
      have h1 := applyFetchSuccess_isPolling_false docs st hp
      have h2 := applyFetchSuccess_timerActive docs st
      constructor
      · simp [pollerStep, h1, hp]
      · simp [pollerStep, h1, hp, h2, ht]
  | timerTick => exact ⟨hp, ht⟩
  | refreshClick => exact ⟨hp, ht⟩
  | resumeClick => exact absurd rfl hr

/-- With polling stopped, a resume-free event sequence issues no timer-driven
requests at all. -/
theorem timerRequests_stopped (evs : List PollerEvent) (st : PollerState)
    (hp : st.isPolling = false) (ht : st.timerActive = false)
    (hr : ∀ e ∈ evs, e ≠ PollerEvent.resumeClick) :
    timerRequests evs st = 0 := by
  induction evs generalizing st with
  | nil => rfl
  | cons e es ih =>
      have he : e ≠ PollerEvent.resumeClick := hr e (by simp)
      have hpres := pollerStopped_preserved st e hp ht he
      have htail := ih (pollerStep e st).1 hpres.1 hpres.2
        (fun x hx => hr x (List.mem_cons_of_mem e hx))
      cases e with
      | timerTick =>
          have htail2 : timerRequests es st = 0 := by simpa [pollerStep] using htail
          simp [timerRequests, pollerStep, ht, htail2]
      | fetchSuccess docs => simpa [timerRequests] using htail
      | refreshClick => simpa [timerRequests] using htail
      | resumeClick => exact absurd rfl he

/-- A poller that is actively polling with an empty document list (the state
right after mount). -/
def pollerRunning : PollerState := { documents := [], isPolling := true, timerActive := true }

/-- A fetched list in which every record is terminal. -/
def docTerminalList : List DocumentRecord :=
  [{ id := "d1", fileName := "a.pdf", status := "COMPLETED" },
   { id := "d2", fileName := "b.pdf", status := "ERROR" }]

/-- C6 counterexample: from the concrete gate-stopped state (a running poller
that just received an all-terminal list), a `resume()` click does NOT re-arm
the periodic timer: the status effect (`[documents, isPolling]`) reverts
`isPolling` in the same cascade and the polling effect's cleanup clears the
just-armed interval, so `isPolling` and the timer end false and the next tick
issues no request — refuting the claim that resume re-arms the timer and a
further automatic request follows from it. -/
theorem poller_resume_rearm_counterexample :
    (pollerStep PollerEvent.resumeClick
        (pollerStep (PollerEvent.fetchSuccess docTerminalList) pollerRunning).1).1.timerActive
      = false ∧
    (pollerStep PollerEvent.resumeClick
        (pollerStep (PollerEvent.fetchSuccess docTerminalList) pollerRunning).1).1.isPolling
      = false ∧
    (pollerStep PollerEvent.timerTick
        (pollerStep PollerEvent.resumeClick
          (pollerStep (PollerEvent.fetchSuccess docTerminalList) pollerRunning).1).1).2
      = 0 := by decide

/-- C6 (amended): a successful fetch whose returned list is non-empty with
every record in a terminal state stops polling: `isPolling` goes false and
the interval is cleared, and any following event sequence without a resume
produces zero timer-driven requests.  A subsequent `resume()` call does cause
further automatic requests — the polling effect's immediate fetches, two in
the reverted cascade — but because the documents are still all-terminal the
status effect immediately sets `isPolling` back to false and the interval is
cleared before any tick can fire: the periodic timer is NOT re-armed and the
next tick issues nothing.  `hsync` states that the polling `useEffect` has
run, so the interval is armed exactly when `isPolling` holds. -/
theorem pollerTermination_spec (st : PollerState) (docs : List DocumentRecord)
    (hsync : st.timerActive = st.isPolling)
    (hne : docs ≠ []) (hterm : allDocumentsProcessed docs = true) :
    (pollerStep (PollerEvent.fetchSuccess docs) st).1.isPolling = false ∧
    (pollerStep (PollerEvent.fetchSuccess docs) st).1.timerActive = false ∧
    (∀ evs : List PollerEvent, (∀ e ∈ evs, e ≠ PollerEvent.resumeClick) →
      timerRequests evs (pollerStep (PollerEvent.fetchSuccess docs) st).1 = 0) ∧
    (pollerStep PollerEvent.resumeClick
        (pollerStep (PollerEvent.fetchSuccess docs) st).1).2 = 2 ∧
    (pollerStep PollerEvent.resumeClick
        (pollerStep (PollerEvent.fetchSuccess docs) st).1).1.timerActive = false ∧
    (pollerStep PollerEvent.resumeClick
        (pollerStep (PollerEvent.fetchSuccess docs) st).1).1.isPolling = false ∧
    (pollerStep PollerEvent.timerTick
        (pollerStep PollerEvent.resumeClick
          (pollerStep (PollerEvent.fetchSuccess docs) st).1).1).2 = 0 := by
  have hA : applyFetchSuccess docs st = { st with documents := docs, isPolling := false } := by
    unfold applyFetchSuccess
    have hc : (allDocumentsProcessed docs && decide (docs.length > 0)) = true := by
      simp [hterm, List.length_pos, hne]
    simp [hc]
  have hstop : (pollerStep (PollerEvent.fetchSuccess docs) st).1.isPolling = false ∧
      (pollerStep (PollerEvent.fetchSuccess docs) st).1.timerActive = false := by
    simp only [pollerStep, hA]
    cases hsp : st.isPolling with
    | true => simp [hsp]
    | false =>
        rw [hsp] at hsync
        simp [hsp, hsync]
  have hdocs : (pollerStep (PollerEvent.fetchSuccess docs) st).1.documents = docs := by
    simp only [pollerStep, hA]
    cases hsp : st.isPolling <;> simp [hsp]
  obtain ⟨hp2, ht2⟩ := hstop
  refine ⟨hp2, ht2, fun evs hr => timerRequests_stopped evs _ hp2 ht2 hr, ?_, ?_, ?_, ?_⟩ <;>
    · generalize hG : (pollerStep (PollerEvent.fetchSuccess docs) st).1 = F at hp2 ht2 hdocs ⊢
      have hca : allDocumentsProcessed F.documents = true := by rw [hdocs]; exact hterm
      have hcl : 0 < F.documents.length := by
        rw [hdocs]
        exact List.length_pos.mpr hne
      simp [pollerStep, hp2, hca, hcl]

/-- C6 witness: the amended termination theorem applied to a running poller
receiving an all-terminal list, then two ticks (no requests), then a resume
(two immediate requests, timer still cleared). -/
theorem pollerTermination_spec_witness :
    (pollerRunning.timerActive = pollerRunning.isPolling ∧ docTerminalList ≠ [] ∧
      allDocumentsProcessed docTerminalList = true) ∧
    timerRequests [PollerEvent.timerTick, PollerEvent.timerTick]
        (pollerStep (PollerEvent.fetchSuccess docTerminalList) pollerRunning).1 = 0 ∧
    (pollerStep PollerEvent.resumeClick
        (pollerStep (PollerEvent.fetchSuccess docTerminalList) pollerRunning).1).2 = 2 ∧
    (pollerStep PollerEvent.resumeClick
        (pollerStep (PollerEvent.fetchSuccess docTerminalList) pollerRunning).1).1.timerActive
      = false :=
  ⟨⟨by decide, by decide, by decide⟩,
   (pollerTermination_spec pollerRunning docTerminalList (by decide) (by decide)
      (by decide)).2.2.1 [PollerEvent.timerTick, PollerEvent.timerTick] (by decide),
   (pollerTermination_spec pollerRunning docTerminalList (by decide) (by decide)
      (by decide)).2.2.2.1,
   (pollerTermination_spec pollerRunning docTerminalList (by decide) (by decide)
      (by decide)).2.2.2.2.1⟩

/-- The stopped poller after the all-terminal gate has fired. -/
def pollerStopped : PollerState :=
  { documents := [{ id := "d1", fileName := "a.pdf", status := "COMPLETED" }],
    isPolling := false, timerActive := false }

/-- C7 counterexample: from the stopped state, a manual refresh
(`handleRefresh` → `fetchDocuments()`) leaves the poller state — including
the cleared interval — completely unchanged, and even after its fetch
response arrives the timer is still not re-armed.  The claim that a manual
refresh "re-arms the periodic timer" is false: only `handleResumePolling`
touches `isPolling`. -/
theorem refresh_rearm_counterexample :
    (pollerStep PollerEvent.refreshClick pollerStopped).1.timerActive = false ∧
    (pollerStep PollerEvent.refreshClick pollerStopped).1 = pollerStopped ∧
    (pollerStep (PollerEvent.fetchSuccess pollerStopped.documents)
        (pollerStep PollerEvent.refreshClick pollerStopped).1).1.timerActive = false := by decide

/-- C7 (amended): a manual refresh (`handleRefresh` → `fetchDocuments()`)
does not re-arm periodic polling stopped by the all-documents-terminal gate:
in every state it issues exactly one status request and leaves the poller
state — `isPolling`, the timer, and the documents — unchanged. -/
theorem refresh_no_rearm_spec (st : PollerState) :
    pollerStep PollerEvent.refreshClick st = (st, 1) := rfl

/-! ## Claim theorems: websocket module reconnect -/

/-- C8: after ANY history of transport events (so after any number of prior
closes and reconnects), a further close event schedules a reconnect with
delay exactly `RECONNECT_DELAY_MS = 5000` — the delay does not depend on the
retry count and there is no retry cap — and when the scheduled timeout fires,
`connectWebSocket` is called once more. -/
theorem reconnect_unconditional (st : WsModuleState) (evs : List WsEvent) :
    (wsModuleStep WsEvent.closeEvt (runWsEvents evs st)).pendingReconnectDelay =
        some RECONNECT_DELAY_MS ∧
    RECONNECT_DELAY_MS = 5000 ∧
    (wsModuleStep WsEvent.reconnectTimerFires
        (wsModuleStep WsEvent.closeEvt (runWsEvents evs st))).connectCalls =
      (runWsEvents evs st).connectCalls + 1 := by
  refine ⟨rfl, rfl, ?_⟩
  simp [wsModuleStep]

/-! ## Claim theorems: `getDocumentUrl` -/

/-- `split('/')` always produces at least one group. -/
theorem splitOnSlash_ne_nil (l : List Char) : splitOnSlash l ≠ [] := by
  cases l with
  | nil => simp [splitOnSlash]
  | cons c cs =>
      unfold splitOnSlash
      split
      · simp
      · cases h : splitOnSlash cs <;> simp

/-- `join('/')` undoes `split('/')`. -/
theorem joinSlash_splitOnSlash (l : List Char) : joinSlash (splitOnSlash l) = l := by
  induction l with
  | nil => rfl
  | cons c cs ih =>
      unfold splitOnSlash
      by_cases hc : c = '/'
      · subst hc
        simp only [if_pos rfl]
        cases h : splitOnSlash cs with
        | nil => exact absurd h (splitOnSlash_ne_nil cs)
        | cons g gs =>
            rw [h] at ih
            simp [joinSlash, ih]
      · simp only [if_neg hc]
        cases h : splitOnSlash cs with
        | nil => exact absurd h (splitOnSlash_ne_nil cs)
        | cons g gs =>
            rw [h] at ih
            cases gs with
            | nil =>
                simp [joinSlash] at ih ⊢
                simp [ih]
            | cons g2 gs2 =>
                simp [joinSlash] at ih ⊢
                simp [ih]

/-- Splitting `l ++ '/' :: r` where `l` is slash-free yields `l` as the
first group, followed by the groups of `r`. -/
theorem splitOnSlash_append (l r : List Char) (hl : ∀ c ∈ l, c ≠ '/') :
    splitOnSlash (l ++ '/' :: r) = l :: splitOnSlash r := by
  induction l with
  | nil => simp [splitOnSlash]
  | cons c cs ih =>
      have hc : c ≠ '/' := hl c (by simp)
      have ih2 := ih (fun x hx => hl x (by simp [hx]))
      simp only [List.cons_append]
      rw [splitOnSlash, if_neg hc, ih2]

/-- `startsWith` holds on any extension of the pattern. -/
theorem startsWithChars_append (p r : List Char) : startsWithChars p (p ++ r) = true := by
  induction p with
  | nil => rfl
  | cons c cs ih => simp [startsWithChars, ih]

/-- Character-level behavior of `getDocumentUrl` on a well-formed
`s3://<bucket>/<key...>` reference: the scheme and the bucket are dropped and
the key is preserved verbatim behind `https://<domain>/`. -/
theorem getDocumentUrlChars_rewrite (cf bucket key : List Char)
    (hcf : cf ≠ []) (hb : '/' ∉ bucket) :
    getDocumentUrlChars cf (s3Scheme ++ (bucket ++ '/' :: key)) =
      httpsScheme ++ (cf ++ '/' :: key) := by
  unfold getDocumentUrlChars
  have h0 : ((s3Scheme ++ (bucket ++ '/' :: key)).isEmpty || cf.isEmpty) = false := by
    simp [s3Scheme, hcf]
  have h1 : startsWithChars s3Scheme (s3Scheme ++ (bucket ++ '/' :: key)) = true :=
    startsWithChars_append s3Scheme (bucket ++ '/' :: key)
  rw [h0]
  simp only [Bool.false_eq_true, if_false, h1, if_true]
  rw [List.drop_left]
  rw [splitOnSlash_append bucket key (fun c hc he => hb (he ▸ hc))]
  simp [joinSlash_splitOnSlash]

/-- Character-level behavior on any non-empty input not starting with
`s3://`: returned unchanged. -/
theorem getDocumentUrlChars_passthrough (cf other : List Char)
    (hcf : cf ≠ []) (ho : other ≠ [])
    (hos : startsWithChars s3Scheme other = false) :
    getDocumentUrlChars cf other = other := by
  unfold getDocumentUrlChars
  simp [hcf, ho, hos]

/-- C9 counterexample: with a configured CloudFront domain, the empty stored
reference — an input "of any other form" than `s3://<bucket>/<key...>` — is
not returned unchanged: `getDocumentUrl` returns `"#"`. -/
theorem getDocumentUrl_counterexample :
    getDocumentUrl (some "d1.cloudfront.net") "" = "#" ∧ "#" ≠ "" := by decide

/-- C9 (amended): with a non-empty CloudFront domain, every reference of the
form `s3://<bucket>/<key...>` (slash-free bucket) is rewritten to
`https://<domain>/<key...>` — the bucket is dropped, the key kept verbatim;
every NON-EMPTY reference not starting with `s3://` is returned unchanged;
the empty reference yields `"#"`. -/
theorem getDocumentUrl_spec (cf bucket key other : String)
    (hcf : cf ≠ "") (hb : ¬ '/' ∈ bucket.toList)
    (ho : other ≠ "") (hos : startsWithChars s3Scheme other.toList = false) :
    getDocumentUrl (some cf) ("s3://" ++ (bucket ++ ("/" ++ key))) =
      "https://" ++ (cf ++ ("/" ++ key)) ∧
    getDocumentUrl (some cf) other = other ∧
    getDocumentUrl (some cf) "" = "#" := by
  have hcfl : cf.toList ≠ [] := by
    intro h
    exact hcf (congrArg String.mk h)
  refine ⟨?_, ?_, ?_⟩
  · unfold getDocumentUrl
    have hdata : ("s3://" ++ (bucket ++ ("/" ++ key))).toList =
        s3Scheme ++ (bucket.toList ++ '/' :: key.toList) := by
      show ("s3://" ++ (bucket ++ ("/" ++ key))).data = _
      rw [String.data_append, String.data_append, String.data_append]
      rfl
    rw [Option.getD, hdata, getDocumentUrlChars_rewrite cf.toList bucket.toList key.toList hcfl hb]
    apply congrArg String.mk
    show _ = ("https://" ++ (cf ++ ("/" ++ key))).data
    rw [String.data_append, String.data_append, String.data_append]
    rfl
  · unfold getDocumentUrl
    have hol : other.toList ≠ [] := by
      intro h
      exact ho (congrArg String.mk h)
    rw [Option.getD, getDocumentUrlChars_passthrough cf.toList other.toList hcfl hol hos]
    rfl
  · unfold getDocumentUrl
    rw [Option.getD]
    have h0 : getDocumentUrlChars cf.toList ("" : String).toList = ['#'] := by
      show getDocumentUrlChars cf.toList [] = ['#']
      simp [getDocumentUrlChars]
    rw [h0]

/-- C9 witness: the amended claim evaluated on concrete inputs. -/
theorem getDocumentUrl_spec_witness :
    (("d1.cloudfront.net" : String) ≠ "" ∧ ¬ '/' ∈ "bucket".toList ∧
      ("http://x/y" : String) ≠ "" ∧ startsWithChars s3Scheme "http://x/y".toList = false) ∧
    getDocumentUrl (some "d1.cloudfront.net") ("s3://" ++ ("bucket" ++ ("/" ++ "docs/a.pdf"))) =
      "https://" ++ ("d1.cloudfront.net" ++ ("/" ++ "docs/a.pdf")) ∧
    getDocumentUrl (some "d1.cloudfront.net") "http://x/y" = "http://x/y" ∧
    getDocumentUrl (some "d1.cloudfront.net") "" = "#" :=
  ⟨⟨by decide, by decide, by decide, by decide⟩,
   getDocumentUrl_spec "d1.cloudfront.net" "bucket" "docs/a.pdf" "http://x/y"
     (by decide) (by decide) (by decide) (by decide)⟩

end TalkToYourDocs
